import Mathlib

/-!
Verification development for `positron_ipkernel.py`
(`src/extensions/positron-python/pythonFiles/positron_ipkernel.py`).

The file shallowly embeds the change-tracking namespace (`PositronDict`),
the variable classifier/summarizer, and the post-execute reporting logic,
and proves or refutes the behavioural claims about them.

Modelling conventions:
* Python dicts are insertion-ordered association lists with unique keys
  (`List (K × V)` handled through `alLookup` / `alSet` / `alErase`).
* Python sets are duplicate-free lists (`listInsert` models `set.add`).
* Python object identity (`is`) is modelled as equality on the value type:
  an element of `V` stands for one Python object, so two equal elements of
  `V` denote the very same object (e.g. the interned small int `5`, `None`,
  or one object passed twice).
* Fallible Python code returns `Except PyErr` / pairs an `Option PyErr`
  with the post-state; the state component of an error result is the state
  after whatever mutations happened before the raise.
-/

set_option autoImplicit false
set_option linter.unusedSectionVars false

/-- Python exceptions raised by the embedded code. -/
inductive PyErr where
  | keyError
  | attributeError
  | typeError
  | valueError
  deriving DecidableEq, Repr

/-- Decidable equality on `Except`, so that concrete evaluations of fallible
operations can be checked by `decide`. -/
instance {E A : Type} [DecidableEq E] [DecidableEq A] : DecidableEq (Except E A)
  | .ok a, .ok b =>
      if h : a = b then .isTrue (by rw [h]) else .isFalse (by simp [h])
  | .ok _, .error _ => .isFalse (by simp)
  | .error _, .ok _ => .isFalse (by simp)
  | .error e, .error f =>
      if h : e = f then .isTrue (by rw [h]) else .isFalse (by simp [h])

section AssocList

variable {K V : Type}

/-- First-match lookup in an association list (Python `dict.__getitem__` /
`in`, on the unique-key lists the code builds). -/
def alLookup [DecidableEq K] : List (K × V) → K → Option V
  | [], _ => none
  | (k', v) :: rest, k => if k' = k then some v else alLookup rest k

/-- The keys of an association list, in order (Python `dict` iteration order). -/
def keysOf (l : List (K × V)) : List K :=
  l.map Prod.fst

/-- Python `dict.__setitem__`: overwrite the entry in place when the key is
present (keeping its position), otherwise append the new entry at the end. -/
def alSet [DecidableEq K] (l : List (K × V)) (k : K) (v : V) : List (K × V) :=
  if (alLookup l k).isSome then
    l.map (fun p => if p.1 = k then (k, v) else p)
  else
    l ++ [(k, v)]

/-- Python `dict.__delitem__`'s effect on the entries: drop every entry for
the key (at most one on the unique-key lists the code builds). -/
def alErase [DecidableEq K] : List (K × V) → K → List (K × V)
  | [], _ => []
  | (k', v) :: rest, k => if k' = k then alErase rest k else (k', v) :: alErase rest k

/-- Python `set.add`: insert the element unless already present. -/
def listInsert [DecidableEq K] (l : List K) (k : K) : List K :=
  if k ∈ l then l else l ++ [k]

end AssocList

/-- State of a fully constructed `PositronDict`: the mapping contents plus the
two tracking attributes `_positron_assigned` (a dict) and `_positron_removed`
(a set). -/
structure PositronDict (K V : Type) where
  data : List (K × V)
  assigned : List (K × V)
  removed : List K
  deriving DecidableEq, Repr

section PositronDictOps

variable {K V : Type} [DecidableEq K] [DecidableEq V]

/-- `PositronDict.__setitem__`: `super().__setitem__(key, value)` then
`self._positron_assigned[key] = value`. -/
def PositronDict.setitem (d : PositronDict K V) (k : K) (v : V) : PositronDict K V :=
  { data := alSet d.data k v
    assigned := alSet d.assigned k v
    removed := d.removed }

/-- `PositronDict.setdefault`: `result = super().setdefault(key, default)`
(insert the default only when the key is absent, return the stored value),
then record `key -> default` in `_positron_assigned` when `result is default`.
The identity test `is` is modelled as equality on `V` (see the header). -/
def PositronDict.setdefault (d : PositronDict K V) (k : K) (dfl : V) :
    V × PositronDict K V :=
  match alLookup d.data k with
  | some v =>
      if v = dfl then
        (v, { d with assigned := alSet d.assigned k dfl })
      else
        (v, d)
  | none =>
      (dfl, { data := alSet d.data k dfl
              assigned := alSet d.assigned k dfl
              removed := d.removed })

/-- `PositronDict.__delitem__`: `super().__delitem__(key)` (raises `KeyError`
on an absent key, before any tracking mutation) then
`self._positron_removed.add(key)`. -/
def PositronDict.delitem (d : PositronDict K V) (k : K) :
    Option PyErr × PositronDict K V :=
  match alLookup d.data k with
  | none => (some .keyError, d)
  | some _ =>
      (none, { d with data := alErase d.data k, removed := listInsert d.removed k })

/-- `PositronDict.pop`: `dfl = none` models the `_NoDefaultSpecified` sentinel
(no caller-supplied default).  With no default, `super().pop(key)` raises
`KeyError` on an absent key; a stored user value is never the sentinel object,
so a successful pop is always recorded in `_positron_removed`.  With a default,
`super().pop(key, default)` returns the default on an absent key, and the key
is recorded only when `result is not default` — the stored object being the
default object itself (modelled as equality on `V`) suppresses the record. -/
def PositronDict.pop (d : PositronDict K V) (k : K) (dfl : Option V) :
    Except PyErr V × PositronDict K V :=
  match dfl with
  | none =>
      match alLookup d.data k with
      | none => (.error .keyError, d)
      | some v =>
          (.ok v, { d with data := alErase d.data k, removed := listInsert d.removed k })
  | some dv =>
      match alLookup d.data k with
      | none => (.ok dv, d)
      | some v =>
          if v = dv then
            (.ok v, { d with data := alErase d.data k })
          else
            (.ok v, { d with data := alErase d.data k, removed := listInsert d.removed k })

/-- `PositronDict._positron_reset_watch`: clear both tracking collections,
leaving the mapping contents untouched. -/
def PositronDict.resetWatch (d : PositronDict K V) : PositronDict K V :=
  { d with assigned := [], removed := [] }

/-- `PositronDict._positron_get_changes`: a snapshot copy of
`(_positron_assigned, _positron_removed)`. -/
def PositronDict.getChanges (d : PositronDict K V) : List (K × V) × List K :=
  (d.assigned, d.removed)

/-- `PositronDict.clear`: empty the mapping and reset the watch. -/
def PositronDict.clearAll (_d : PositronDict K V) : PositronDict K V :=
  ⟨[], [], []⟩

/-- `PositronDict.__init__(other, **kwargs)`, with the initial contents
(mapping items, iterable pairs, and keyword arguments alike) flattened into
one list of pairs.  The source runs `super().__init__()` and then
`self.update(other, **kwargs)` BEFORE creating `_positron_assigned` /
`_positron_removed`; `update` routes every item through the overridden
`__setitem__`, whose `self._positron_assigned[key] = value` raises
`AttributeError` because the attribute does not exist yet.  So construction
succeeds only when there is nothing to insert. -/
def initPositronDict (items : List (K × V)) : Except PyErr (PositronDict K V) :=
  match items with
  | [] => .ok ⟨[], [], []⟩
  | _ :: _ => .error .attributeError

end PositronDictOps

/-! ## Variable classifier and summarizer -/

/-- `EnvironmentVariableKind`: categories of variables in the user's
environment (`vector` is declared in the source but never produced). -/
inductive VKind where
  | dataframe
  | function
  | list
  | number
  | object
  | string
  | vector
  deriving DecidableEq, Repr

/-- The Python values the summarizer observes, abstracted to what the code
inspects.  `pstr`/`pnum` cover `str` / `numbers.Number`; `plist` covers the
list/set/frozenset/tuple/range branch (only its `len` is observed); `pfunc`
covers `types.FunctionType` (its `__qualname__` and signature string);
`pobj` covers every other non-`None` object, with the attributes the code
reads: its type's module and name, an optional `shape` attribute, an optional
`__len__` result, whether `repr` raises, whether `__sizeof__` raises, and its
reported byte size. -/
inductive PyValue where
  | pnone
  | pstr (s : List Char)
  | pnum (n : Int)
  | plist (len : Nat)
  | pfunc (qualname : String) (sig : String)
  | pobj (module : String) (tname : String) (shape : Option (List Nat))
      (len : Option Nat) (reprFails : Bool) (sizeofFails : Bool) (size : Nat)
  deriving DecidableEq, Repr

/-- The record built by `EnvironmentVariable.__init__` when called with all
six required positional arguments (`kind = none` omits the `'kind'` key). -/
structure EnvVar where
  name : String
  value : String
  kind : Option VKind
  type_name : String
  length : Option Nat
  size : Nat
  deriving DecidableEq, Repr

/-- Outbound messages on the `positron.environment` comm. -/
inductive EnvMsg where
  | list (vs : List EnvVar)
  | update (assigned : List EnvVar) (removed : List String)
  | error (message : String)
  deriving DecidableEq, Repr

def MAX_ITEMS : Nat := 2000

def MAX_ITEM_SUMMARY_LENGTH : Nat := 1024

def ITEM_SUMMARY_PRINT_WIDTH : Nat := 100

/-- `truncate_value`: `(value[:max_width] + '...') if len(value) > max_width
else value`. -/
def truncate_value (maxWidth : Nat) (s : List Char) : List Char :=
  if maxWidth < s.length then s.take maxWidth ++ ['.', '.', '.'] else s

/-- `get_qualname`: `module.TypeName`, with the module omitted for built-in
types; the literal `"None"` for a `None` value.  (`plist` stands for all the
built-in collection types; `"list"` is its representative name.  The type of
a Python function is the built-in type `function`.) -/
def get_qualname : PyValue → String
  | .pnone => "None"
  | .pstr _ => "str"
  | .pnum _ => "int"
  | .plist _ => "list"
  | .pfunc _ _ => "function"
  | .pobj m t _ _ _ _ _ => if m = "builtins" then t else m ++ "." ++ t

def DATAFRAME_TYPES : List String :=
  ["pandas.core.frame.DataFrame", "polars.dataframe.frame.DataFrame"]

/-- `is_dataframe`: fixed allow-list match on the fully qualified type name. -/
def is_dataframe (v : PyValue) : Bool :=
  DATAFRAME_TYPES.contains (get_qualname v)

/-- `get_kind`: the ordered classification chain — str, Number, list-likes,
FunctionType, then (for any other non-None value) dataframe-or-object, and
`None` (absent kind) for a `None` value. -/
def get_kind : PyValue → Option VKind
  | .pstr _ => some .string
  | .pnum _ => some .number
  | .plist _ => some .list
  | .pfunc _ _ => some .function
  | .pnone => none
  | v@(.pobj _ _ _ _ _ _ _) =>
      if is_dataframe v then some .dataframe else some .object

/-- `get_length`: `len(value)` when the value has a working `__len__`,
otherwise 0 (a raising `len` is also caught and gives 0). -/
def get_length : PyValue → Nat
  | .pstr s => s.length
  | .plist n => n
  | .pobj _ _ _ (some n) _ _ _ => n
  | _ => 0

/-- `sys.getsizeof(value)`: an object may override `__sizeof__` to raise;
the concrete sizes of the other modelled values are irrelevant to every
claim and fixed at 0. -/
def getsizeof : PyValue → Except PyErr Nat
  | .pobj _ _ _ _ _ true _ => .error .valueError
  | .pobj _ _ _ _ _ false sz => .ok sz
  | _ => .ok 0

/-- Python `repr` of a string: the quoted form.  Escaping of quotes inside
the string is not modelled; no claim depends on the exact text.  (`Char.ofNat
39` is the apostrophe character.) -/
def pyReprStr (s : List Char) : List Char :=
  Char.ofNat 39 :: s ++ [Char.ofNat 39]

/-- `pprint.pformat(value, indent=1, width=100, compact=True)`: the exact
layout is host-library behaviour and no claim depends on it, so the non-string
renderings are stand-ins; what is modelled faithfully is that formatting an
object calls its `repr`, which may raise. -/
def pformat : PyValue → Except PyErr (List Char)
  | .pnone => .ok "None".data
  | .pstr s => .ok (pyReprStr s)
  | .pnum n => .ok (toString n).data
  | .plist n => .ok ("[" ++ toString n ++ " items]").data
  | .pfunc q _ => .ok ("<function " ++ q ++ ">").data
  | .pobj _ _ _ _ true _ _ => .error .valueError
  | .pobj m t _ _ false _ _ => .ok ("<" ++ m ++ "." ++ t ++ " object>").data

/-- `format_value`: pretty-print then truncate (a raising `repr` propagates). -/
def format_value (v : PyValue) : Except PyErr (List Char) :=
  match pformat v with
  | .error e => .error e
  | .ok s => .ok (truncate_value MAX_ITEM_SUMMARY_LENGTH s)

/-- The string branch of `summarize_any`: `repr(self.truncate_value(value))`.
Slicing a non-string raises; that case is unreachable from the dispatcher,
which only passes kind `string` for `str` values. -/
def renderString : PyValue → Except PyErr (List Char)
  | .pstr s => .ok (pyReprStr (truncate_value MAX_ITEM_SUMMARY_LENGTH s))
  | _ => .error .typeError

/-- `summarize_any`: computes the qualified type name outside the `try`,
renders the value, and builds the six-argument `EnvironmentVariable`.  The
`except` branch in the source is `return EnvironmentVariable(key, type_name,
None)` — a call supplying three positional arguments to an `__init__` with six
required positional parameters, so Python raises `TypeError` at that call and
`summarize_any` raises to its caller instead of returning a degraded
summary. -/
def summarize_any (key : String) (value : PyValue) (kind : Option VKind) :
    Except PyErr EnvVar :=
  let type_name := get_qualname value
  match (if kind = some VKind.string then renderString value else format_value value) with
  | .error _ => .error .typeError
  | .ok summarized =>
      match getsizeof value with
      | .error _ => .error .typeError
      | .ok size =>
          .ok (EnvVar.mk key (String.mk summarized) kind type_name
            (some (get_length value)) size)

/-- `summarize_dataframe`: `shape = getattr(value, 'shape', None)`, defaulted
to `(0, 0)` when absent; the dimension suffix is appended only when
`get_length(shape) == 2` (the two-element match below), so a malformed shape
leaves the bare `'DataFrame: '` prefix.  The `except` branch in the source is
`return EnvironmentVariable(key, type_name, kind)` — again three positional
arguments for six required parameters — so an internal failure (e.g. a raising
`__sizeof__`) raises `TypeError` to the caller. -/
def summarize_dataframe (key : String) (value : PyValue) : Except PyErr EnvVar :=
  let type_name := get_qualname value
  let shape : List Nat :=
    match value with
    | .pobj _ _ (some sh) _ _ _ _ => sh
    | _ => [0, 0]
  let summarized : String :=
    match shape with
    | [r, c] =>
        "DataFrame: " ++ "[" ++ toString r ++ " rows x " ++ toString c ++ " columns]"
    | _ => "DataFrame: "
  match getsizeof value with
  | .error _ => .error .typeError
  | .ok size =>
      .ok (EnvVar.mk key summarized (some VKind.dataframe) type_name
        (some (get_length value)) size)

/-- `summarize_function`: display value `f'{value.__qualname__}{sig}'`, type
name `value.__qualname__`, length `None`, the (irrelevant, fixed-at-0)
`sys.getsizeof` size.  A non-callable value would lack `__qualname__` and
raise `AttributeError` (there is no `try` here); that case is unreachable from
the dispatcher, which routes only `types.FunctionType` values here. -/
def summarize_function (key : String) : PyValue → Except PyErr EnvVar
  | .pfunc q sig => .ok (EnvVar.mk key (q ++ sig) (some VKind.function) q none 0)
  | _ => .error .attributeError

/-- The loop body of `summarize_variables`: skip hidden names (before the
counter check, so hidden items never consume quota), stop at `max_items`
non-hidden items, dispatch on the kind, and propagate any exception raised by
a summarizer (there is no `try` around the loop). -/
def summarizeLoop (hidden : List String) (maxItems : Nat) :
    List (String × PyValue) → List EnvVar → Nat → Except PyErr (List EnvVar)
  | [], acc, _ => .ok acc.reverse
  | (key, value) :: rest, acc, i =>
    if key ∈ hidden then
      summarizeLoop hidden maxItems rest acc i
    else if maxItems ≤ i then
      .ok acc.reverse
    else
      -- the source binds `kind = self.get_kind(value)` once; `get_kind` is
      -- pure, so inlining it is equivalent
      match (if get_kind value = some VKind.function then
               summarize_function key value
             else if get_kind value = some VKind.dataframe then
               summarize_dataframe key value
             else summarize_any key value (get_kind value)) with
      | .error e => .error e
      | .ok s => summarizeLoop hidden maxItems rest (s :: acc) (i + 1)

/-- `summarize_variables(variables, hidden, max_items)`. -/
def summarize_variables (vars : List (String × PyValue)) (hidden : List String)
    (maxItems : Nat) : Except PyErr (List EnvVar) :=
  summarizeLoop hidden maxItems vars [] 0

/-- `send_update`: summarize the assigned variables with hidden-name
filtering, filter hidden names out of the removed set, and send an `update`
message only when at least one filtered side is non-empty.  The guard that
makes the whole method a no-op when the comm or shell is absent is not
modelled: the channel is assumed open (with no channel nothing at all is
sent, which cannot leak a hidden name either). -/
def send_update (assigned : List (String × PyValue)) (removed : List String)
    (hidden : List String) : Except PyErr (Option EnvMsg) :=
  match summarize_variables assigned hidden MAX_ITEMS with
  | .error e => .error e
  | .ok filtered_assigned =>
      -- the source binds `filtered_removed` once; the filter is pure, so
      -- writing it twice is equivalent
      if 0 < filtered_assigned.length
          ∨ 0 < (removed.filter (fun n => decide (¬ n ∈ hidden))).length then
        .ok (some (.update filtered_assigned
          (removed.filter (fun n => decide (¬ n ∈ hidden)))))
      else
        .ok none

/-- `send_list`: summarize the full namespace with hidden-name filtering and
send a `list` message (channel assumed open, as in `send_update`). -/
def send_list (ns : List (String × PyValue)) (hidden : List String) :
    Except PyErr (Option EnvMsg) :=
  match summarize_variables ns hidden MAX_ITEMS with
  | .error e => .error e
  | .ok filtered_variables => .ok (some (.list filtered_variables))

/-- `handle_post_execute`, on the path where the namespace supports change
tracking (the model's `user_ns` is always a `PositronDict`): read the
accumulated changes, reset the watch, then either `send_update` (when both
counts are strictly below `MAX_ITEMS`) or `send_list` on the (reset but
content-preserving) namespace.  The surrounding `try`/`except BaseException`
logs any exception and sends nothing, so an error result emits no message. -/
def handle_post_execute (ns : PositronDict String PyValue) (hidden : List String) :
    PositronDict String PyValue × Option EnvMsg :=
  -- the source binds `assigned, removed = ns._positron_get_changes()` and then
  -- resets the watch; the reset leaves the mapping entries untouched, so the
  -- `list` branch reads the same `data` from the reset namespace
  match (if ns.assigned.length < MAX_ITEMS ∧ ns.removed.length < MAX_ITEMS then
           send_update ns.assigned ns.removed hidden
         else
           send_list ns.data hidden) with
  | .ok m => (ns.resetWatch, m)
  | .error _ => (ns.resetWatch, none)

/-! ## Operation sequences on the tracked namespace -/

/-- One mutating operation on the tracked namespace.  `pop k none` is a pop
with no caller-supplied default (the `_NoDefaultSpecified` sentinel). -/
inductive Op (K V : Type) where
  | set (k : K) (v : V)
  | setdefault (k : K) (dfl : V)
  | delete (k : K)
  | pop (k : K) (dfl : Option V)
  deriving DecidableEq, Repr

section OpRuns

variable {K V : Type} [DecidableEq K] [DecidableEq V]

/-- Apply one operation, keeping only the resulting state (return values and
raised `KeyError`s are discarded; a failed operation leaves the state as the
code leaves it). -/
def applyOp (d : PositronDict K V) : Op K V → PositronDict K V
  | .set k v => d.setitem k v
  | .setdefault k dfl => (d.setdefault k dfl).2
  | .delete k => (d.delitem k).2
  | .pop k dfl => (d.pop k dfl).2

/-- Run a sequence of operations left to right. -/
def runOps (d : PositronDict K V) : List (Op K V) → PositronDict K V
  | [] => d
  | op :: rest => runOps (applyOp d op) rest

/-- Claim-language predicate (C2 as stated): the operation, applied in state
`d`, is a successful set on key `k` — a `set`, or a `setdefault` that inserts
its default because the key is absent. -/
def claimSetsB (d : PositronDict K V) (op : Op K V) (k : K) : Bool :=
  match op with
  | .set k' _ => decide (k = k')
  | .setdefault k' _ => decide (k = k') && (alLookup d.data k').isNone
  | .delete _ => false
  | .pop _ _ => false

/-- Claim-language predicate (C2 as stated): the operation, applied in state
`d`, successfully removes key `k` — a delete or pop of a present key. -/
def claimRemovesB (d : PositronDict K V) (op : Op K V) (k : K) : Bool :=
  match op with
  | .delete k' => decide (k = k') && (alLookup d.data k').isSome
  | .pop k' _ => decide (k = k') && (alLookup d.data k').isSome
  | .set _ _ => false
  | .setdefault _ _ => false

/-- Classification of the LAST operation on key `k` along the run, in the
claim's terms: `some true` when it is a successful set/setDefault, `some
false` when it is a successful removal, `none` when no operation classifies. -/
def lastOpKind (d : PositronDict K V) (ops : List (Op K V)) (k : K) : Option Bool :=
  match ops with
  | [] => none
  | op :: rest =>
      match lastOpKind (applyOp d op) rest k with
      | some b => some b
      | none =>
          if claimSetsB d op k then some true
          else if claimRemovesB d op k then some false
          else none

/-- Claim C2 exactly as stated, for one start state and operation sequence:
after the run, the assigned set holds exactly the keys whose last operation
was a successful set/setDefault, and the removed set exactly the keys that
were successfully removed and not re-added afterward. -/
def claimC2Holds (d : PositronDict K V) (ops : List (Op K V)) : Prop :=
  ∀ k : K,
    (k ∈ keysOf (runOps d ops).assigned ↔ lastOpKind d ops k = some true)
      ∧ (k ∈ (runOps d ops).removed ↔ lastOpKind d ops k = some false)

/-- What the code actually records as an assignment: a `set`, or a
`setdefault` whose result is the default object (the key is absent, or its
stored value is the default). -/
def recordsAssign (d : PositronDict K V) (op : Op K V) (k : K) : Prop :=
  match op with
  | .set k' _ => k = k'
  | .setdefault k' dfl =>
      k = k' ∧ (alLookup d.data k' = none ∨ alLookup d.data k' = some dfl)
  | .delete _ => False
  | .pop _ _ => False

/-- What the code actually records as a removal: a successful delete, a
successful pop with no default, or a pop removing a stored value distinct
from the supplied default. -/
def recordsRemove (d : PositronDict K V) (op : Op K V) (k : K) : Prop :=
  match op with
  | .delete k' => k = k' ∧ (alLookup d.data k').isSome = true
  | .pop k' none => k = k' ∧ (alLookup d.data k').isSome = true
  | .pop k' (some dv) => k = k' ∧ ∃ v, alLookup d.data k' = some v ∧ v ≠ dv
  | .set _ _ => False
  | .setdefault _ _ => False

/-- Some operation along the run, applied in the state it actually sees,
satisfies `P` at key `k`. -/
def EverOp (P : PositronDict K V → Op K V → K → Prop) :
    PositronDict K V → List (Op K V) → K → Prop
  | _, [], _ => False
  | d, op :: rest, k => P d op k ∨ EverOp P (applyOp d op) rest k

theorem alLookup_isSome_iff (l : List (K × V)) (k : K) :
    (alLookup l k).isSome = true ↔ k ∈ keysOf l := by
  induction l with
  | nil => simp [alLookup, keysOf]
  | cons p rest ih =>
      obtain ⟨k', v⟩ := p
      by_cases h : k' = k
      · subst h
        simp [alLookup, keysOf]
      · have h' : ¬ k = k' := fun hh => h hh.symm
        simp [alLookup, keysOf, h, h'] at ih ⊢
        exact ih

theorem keysOf_replaceEntry (l : List (K × V)) (k' : K) (v : V) :
    keysOf (l.map fun p => if p.1 = k' then (k', v) else p) = keysOf l := by
  induction l with
  | nil => rfl
  | cons p rest ih =>
      obtain ⟨a, b⟩ := p
      by_cases h : a = k'
      · subst h
        simp [keysOf] at ih ⊢
        exact ih
      · simp [keysOf, h] at ih ⊢
        exact ih

theorem mem_keysOf_alSet (l : List (K × V)) (k k' : K) (v : V) :
    k ∈ keysOf (alSet l k' v) ↔ k = k' ∨ k ∈ keysOf l := by
  unfold alSet
  by_cases h : (alLookup l k').isSome = true
  · rw [if_pos h, keysOf_replaceEntry]
    have hmem : k' ∈ keysOf l := (alLookup_isSome_iff l k').mp h
    constructor
    · exact Or.inr
    · rintro (rfl | hk)
      · exact hmem
      · exact hk
  · rw [if_neg h]
    simp [keysOf, or_comm]

theorem mem_listInsert (l : List K) (k k' : K) :
    k ∈ listInsert l k' ↔ k = k' ∨ k ∈ l := by
  unfold listInsert
  by_cases h : k' ∈ l
  · rw [if_pos h]
    constructor
    · exact Or.inr
    · rintro (rfl | hk)
      · exact h
      · exact hk
  · rw [if_neg h]
    simp [or_comm]

theorem applyOp_assigned_mem (d : PositronDict K V) (op : Op K V) (k : K) :
    k ∈ keysOf (applyOp d op).assigned ↔ recordsAssign d op k ∨ k ∈ keysOf d.assigned := by
  cases op with
  | set k' v =>
      simp [applyOp, PositronDict.setitem, recordsAssign, mem_keysOf_alSet]
  | setdefault k' dfl =>
      simp only [applyOp, PositronDict.setdefault]
      cases hl : alLookup d.data k' with
      | none => simp [recordsAssign, hl, mem_keysOf_alSet]
      | some v =>
          by_cases hv : v = dfl
          · simp [recordsAssign, hl, hv, mem_keysOf_alSet]
          · simp [recordsAssign, hl, hv, mem_keysOf_alSet]
  | delete k' =>
      simp only [applyOp, PositronDict.delitem]
      cases hl : alLookup d.data k' <;> simp [recordsAssign]
  | pop k' dfl =>
      simp only [applyOp, PositronDict.pop]
      cases dfl with
      | none => cases hl : alLookup d.data k' <;> simp [recordsAssign]
      | some dv =>
          cases hl : alLookup d.data k' with
          | none => simp [recordsAssign]
          | some v =>
              by_cases hv : v = dv
              · simp [recordsAssign, hv]
              · simp [recordsAssign, hv]

theorem applyOp_removed_mem (d : PositronDict K V) (op : Op K V) (k : K) :
    k ∈ (applyOp d op).removed ↔ recordsRemove d op k ∨ k ∈ d.removed := by
  cases op with
  | set k' v =>
      simp [applyOp, PositronDict.setitem, recordsRemove]
  | setdefault k' dfl =>
      simp only [applyOp, PositronDict.setdefault]
      cases hl : alLookup d.data k' with
      | none => simp [recordsRemove]
      | some v =>
          by_cases hv : v = dfl
          · simp [recordsRemove, hv]
          · simp [recordsRemove, hv]
  | delete k' =>
      simp only [applyOp, PositronDict.delitem]
      cases hl : alLookup d.data k' with
      | none => simp [recordsRemove, hl]
      | some v => simp [recordsRemove, hl, mem_listInsert]
  | pop k' dfl =>
      simp only [applyOp, PositronDict.pop]
      cases dfl with
      | none =>
          cases hl : alLookup d.data k' with
          | none => simp [recordsRemove, hl]
          | some v => simp [recordsRemove, hl, mem_listInsert]
      | some dv =>
          cases hl : alLookup d.data k' with
          | none => simp [recordsRemove, hl]
          | some v =>
              by_cases hv : v = dv
              · simp [recordsRemove, hl, hv]
              · simp [recordsRemove, hl, hv, mem_listInsert]

theorem runOps_assigned_mem (ops : List (Op K V)) (d : PositronDict K V) (k : K) :
    k ∈ keysOf (runOps d ops).assigned ↔
      EverOp recordsAssign d ops k ∨ k ∈ keysOf d.assigned := by
  induction ops generalizing d with
  | nil => simp [runOps, EverOp]
  | cons op rest ih =>
      simp only [runOps, EverOp]
      rw [ih, applyOp_assigned_mem]
      tauto

theorem runOps_removed_mem (ops : List (Op K V)) (d : PositronDict K V) (k : K) :
    k ∈ (runOps d ops).removed ↔ EverOp recordsRemove d ops k ∨ k ∈ d.removed := by
  induction ops generalizing d with
  | nil => simp [runOps, EverOp]
  | cons op rest ih =>
      simp only [runOps, EverOp]
      rw [ih, applyOp_removed_mem]
      tauto

end OpRuns

/-! ## Further association-list lemmas -/

section MoreAlLemmas

variable {K V : Type} [DecidableEq K]

theorem alLookup_replaceEntry_self (l : List (K × V)) (k : K) (v : V)
    (h : (alLookup l k).isSome = true) :
    alLookup (l.map fun p => if p.1 = k then (k, v) else p) k = some v := by
  induction l with
  | nil => simp [alLookup] at h
  | cons p rest ih =>
      obtain ⟨a, b⟩ := p
      by_cases ha : a = k
      · subst ha
        rw [List.map_cons, if_pos (show ((a, b) : K × V).1 = a from rfl)]
        simp [alLookup]
      · have h' : (alLookup rest k).isSome = true := by simpa [alLookup, ha] using h
        rw [List.map_cons, if_neg (show ¬ ((a, b) : K × V).1 = k from ha)]
        simp [alLookup, ha, ih h']

theorem alLookup_append_right (l : List (K × V)) (k : K) (v : V)
    (h : alLookup l k = none) :
    alLookup (l ++ [(k, v)]) k = some v := by
  induction l with
  | nil => simp [alLookup]
  | cons p rest ih =>
      obtain ⟨a, b⟩ := p
      by_cases ha : a = k
      · simp [alLookup, ha] at h
      · simp only [List.cons_append, alLookup, ha, if_false]
        simp [alLookup, ha] at h
        exact ih h

theorem alLookup_alSet_self (l : List (K × V)) (k : K) (v : V) :
    alLookup (alSet l k v) k = some v := by
  unfold alSet
  by_cases h : (alLookup l k).isSome = true
  · rw [if_pos h]
    exact alLookup_replaceEntry_self l k v h
  · rw [if_neg h]
    apply alLookup_append_right
    cases hh : alLookup l k with
    | none => rfl
    | some w => rw [hh] at h; simp at h

theorem alLookup_alErase_self (l : List (K × V)) (k : K) :
    alLookup (alErase l k) k = none := by
  induction l with
  | nil => rfl
  | cons p rest ih =>
      obtain ⟨a, b⟩ := p
      by_cases ha : a = k
      · simp [alErase, ha, ih]
      · simp [alErase, alLookup, ha, ih]

end MoreAlLemmas

/-! ## Claims about the change-tracking namespace -/

section DictClaims

variable {K V : Type} [DecidableEq K] [DecidableEq V]

/-- C2 (counterexample): on a freshly reset namespace, after `set 0` then
`delete 0`, the code leaves key 0 in the assigned set (and in the removed
set), whereas the claim requires the assigned set to hold only keys whose
LAST operation was a successful set — key 0's last operation was a delete. -/
theorem claim_C2_counterexample :
    ¬ claimC2Holds (⟨[], [], []⟩ : PositronDict Nat Nat) [Op.set 0 0, Op.delete 0] := by
  intro h
  have h0 := (h 0).1
  revert h0
  decide

/-- C2 (amended): starting from a freshly reset tracked namespace, after any
finite sequence of set/setDefault/delete/pop operations the assigned set
holds exactly the keys for which some operation RECORDED an assignment (a
`set`, or a `setdefault` returning its default object), and the removed set
exactly the keys for which some operation recorded a removal (a successful
delete, a successful pop without default, or a pop taking an entry whose
value is not the supplied default) — regardless of later operations on the
same key. -/
theorem claim_C2_amended (data0 : List (K × V)) (ops : List (Op K V)) (k : K) :
    (k ∈ keysOf (runOps (⟨data0, [], []⟩ : PositronDict K V) ops).assigned
        ↔ EverOp recordsAssign (⟨data0, [], []⟩ : PositronDict K V) ops k)
      ∧ (k ∈ (runOps (⟨data0, [], []⟩ : PositronDict K V) ops).removed
        ↔ EverOp recordsRemove (⟨data0, [], []⟩ : PositronDict K V) ops k) := by
  constructor
  · rw [runOps_assigned_mem]
    simp [keysOf]
  · rw [runOps_removed_mem]
    simp

/-- C4 (counterexample): with `{0: 5}` stored, `pop(0, 5)` (the stored value
being the same object as the supplied default) removes the entry and returns
the stored value but does NOT add the key to the removed set, contradicting
the claim's "if the key is present it ... adds the key to the removed set". -/
theorem claim_C4_counterexample :
    alLookup (⟨[(0, 5)], [], []⟩ : PositronDict Nat Nat).data 0 = some 5
      ∧ (PositronDict.pop (⟨[(0, 5)], [], []⟩ : PositronDict Nat Nat) 0 (some 5)).1
          = Except.ok 5
      ∧ alLookup ((PositronDict.pop (⟨[(0, 5)], [], []⟩ : PositronDict Nat Nat) 0
          (some 5)).2).data 0 = none
      ∧ ¬ 0 ∈ ((PositronDict.pop (⟨[(0, 5)], [], []⟩ : PositronDict Nat Nat) 0
          (some 5)).2).removed := by
  refine ⟨by decide, rfl, by decide, by decide⟩

/-- C4 (amended): `pop` behaves as claimed except that a present key is added
to the removed set only when the removed value is NOT (identical to) the
supplied default: if present, the entry is removed and its value returned,
and the key joins the removed set iff it was already there or the value
differs from the default (with no default it always joins); if absent with a
default, the default is returned and the state is unchanged; if absent with
no default, it fails with `KeyError` and the state is unchanged. -/
theorem claim_C4_amended (d : PositronDict K V) (k : K) :
    (alLookup d.data k = none →
        d.pop k none = (Except.error PyErr.keyError, d)
          ∧ ∀ dv : V, d.pop k (some dv) = (Except.ok dv, d))
      ∧ ∀ v : V, alLookup d.data k = some v →
          (d.pop k none).1 = Except.ok v
            ∧ (∀ dv : V, (d.pop k (some dv)).1 = Except.ok v)
            ∧ alLookup ((d.pop k none).2).data k = none
            ∧ (∀ dv : V, alLookup ((d.pop k (some dv)).2).data k = none)
            ∧ k ∈ ((d.pop k none).2).removed
            ∧ (∀ dv : V, k ∈ ((d.pop k (some dv)).2).removed
                ↔ k ∈ d.removed ∨ v ≠ dv) := by
  constructor
  · intro h
    refine ⟨?_, ?_⟩
    · simp [PositronDict.pop, h]
    · intro dv
      simp [PositronDict.pop, h]
  · intro v hv
    refine ⟨?_, ?_, ?_, ?_, ?_, ?_⟩
    · simp [PositronDict.pop, hv]
    · intro dv
      by_cases hd : v = dv <;> simp [PositronDict.pop, hv, hd]
    · simp [PositronDict.pop, hv, alLookup_alErase_self]
    · intro dv
      by_cases hd : v = dv <;> simp [PositronDict.pop, hv, hd, alLookup_alErase_self]
    · simp [PositronDict.pop, hv, mem_listInsert]
    · intro dv
      by_cases hd : v = dv
      · subst hd
        simp [PositronDict.pop, hv]
      · simp [PositronDict.pop, hv, hd, mem_listInsert]

theorem claim_C4_witness :
    ((PositronDict.pop (⟨[(0, 5)], [], [7]⟩ : PositronDict Nat Nat) 0 none).1
        = Except.ok 5
      ∧ 0 ∈ ((PositronDict.pop (⟨[(0, 5)], [], [7]⟩ : PositronDict Nat Nat) 0
          none).2).removed)
      ∧ PositronDict.pop (⟨[], [], []⟩ : PositronDict Nat Nat) 1 none
          = (Except.error PyErr.keyError, ⟨[], [], []⟩) := by
  refine ⟨⟨?_, ?_⟩, ?_⟩
  · exact ((claim_C4_amended (⟨[(0, 5)], [], [7]⟩ : PositronDict Nat Nat) 0).2 5
      (by decide)).1
  · exact ((claim_C4_amended (⟨[(0, 5)], [], [7]⟩ : PositronDict Nat Nat) 0).2 5
      (by decide)).2.2.2.2.1
  · exact ((claim_C4_amended (⟨[], [], []⟩ : PositronDict Nat Nat) 1).1 (by decide)).1

/-- C5 (counterexample): with `{0: 5}` stored, `setdefault(0, 5)` (the stored
value being the same object as the default) returns the existing value but
DOES record the key in the assigned set, contradicting the claim's "when the
key is already present ... nothing is recorded in the assigned set". -/
theorem claim_C5_counterexample :
    alLookup (⟨[(0, 5)], [], []⟩ : PositronDict Nat Nat).data 0 = some 5
      ∧ (PositronDict.setdefault (⟨[(0, 5)], [], []⟩ : PositronDict Nat Nat) 0 5).1 = 5
      ∧ 0 ∈ keysOf ((PositronDict.setdefault (⟨[(0, 5)], [], []⟩ :
          PositronDict Nat Nat) 0 5).2).assigned := by
  decide

/-- C5 (amended): `setdefault` records the key in the assigned set exactly
when the key is absent OR the stored value is (identical to) the supplied
default; an absent key gets the default inserted and recorded like `set`, a
present key keeps the mapping unchanged and returns its stored value, and the
removed set is never touched. -/
theorem claim_C5_amended (d : PositronDict K V) (k : K) (dfl : V) :
    ((d.setdefault k dfl).2).removed = d.removed
      ∧ (alLookup d.data k = none →
          (d.setdefault k dfl).1 = dfl
            ∧ alLookup ((d.setdefault k dfl).2).data k = some dfl
            ∧ alLookup ((d.setdefault k dfl).2).assigned k = some dfl)
      ∧ ∀ v : V, alLookup d.data k = some v →
          (d.setdefault k dfl).1 = v
            ∧ ((d.setdefault k dfl).2).data = d.data
            ∧ (k ∈ keysOf ((d.setdefault k dfl).2).assigned
                ↔ v = dfl ∨ k ∈ keysOf d.assigned) := by
  refine ⟨?_, ?_, ?_⟩
  · unfold PositronDict.setdefault
    cases hl : alLookup d.data k with
    | none => simp
    | some v => by_cases hv : v = dfl <;> simp [hv]
  · intro h
    simp [PositronDict.setdefault, h, alLookup_alSet_self]
  · intro v hv
    by_cases hd : v = dfl
    · subst hd
      simp [PositronDict.setdefault, hv, mem_keysOf_alSet]
    · simp [PositronDict.setdefault, hv, hd]

theorem claim_C5_witness :
    ((PositronDict.setdefault (⟨[], [], []⟩ : PositronDict Nat Nat) 3 9).1 = 9
        ∧ alLookup ((PositronDict.setdefault (⟨[], [], []⟩ :
            PositronDict Nat Nat) 3 9).2).assigned 3 = some 9)
      ∧ (PositronDict.setdefault (⟨[(3, 4)], [], []⟩ : PositronDict Nat Nat) 3 9).1 = 4 := by
  refine ⟨⟨?_, ?_⟩, ?_⟩
  · exact ((claim_C5_amended (⟨[], [], []⟩ : PositronDict Nat Nat) 3 9).2.1 (by decide)).1
  · exact ((claim_C5_amended (⟨[], [], []⟩ : PositronDict Nat Nat) 3 9).2.1
      (by decide)).2.2
  · exact ((claim_C5_amended (⟨[(3, 4)], [], []⟩ : PositronDict Nat Nat) 3 9).2.2 4
      (by decide)).1

/-- C9: constructing a `PositronDict` with non-empty initial contents (a
mapping, iterable of pairs, or keyword arguments) raises `AttributeError`,
because `__init__` routes the contents through the tracking `__setitem__`
before `_positron_assigned` exists; only construction with no initial
contents succeeds (yielding the empty namespace with empty tracking sets). -/
theorem claim_C9_init (items : List (K × V)) :
    (items = [] → initPositronDict items = Except.ok ⟨[], [], []⟩)
      ∧ (items ≠ [] → initPositronDict items = Except.error PyErr.attributeError) := by
  constructor
  · intro h
    subst h
    rfl
  · intro h
    cases items with
    | nil => exact absurd rfl h
    | cons p rest => rfl

theorem claim_C9_witness :
    initPositronDict ([] : List (Nat × Nat)) = Except.ok ⟨[], [], []⟩
      ∧ initPositronDict [((0 : Nat), (1 : Nat))] = Except.error PyErr.attributeError :=
  ⟨(claim_C9_init []).1 rfl, (claim_C9_init [(0, 1)]).2 (by decide)⟩

/-- C10: deleting an absent key — via `delete` or via `pop` without a default
— fails with `KeyError` and leaves the whole state (mapping, assigned set,
removed set) unchanged. -/
theorem claim_C10_delete_atomic (d : PositronDict K V) (k : K)
    (h : alLookup d.data k = none) :
    d.delitem k = (some PyErr.keyError, d)
      ∧ d.pop k none = (Except.error PyErr.keyError, d) := by
  constructor
  · simp [PositronDict.delitem, h]
  · simp [PositronDict.pop, h]

theorem claim_C10_witness :
    PositronDict.delitem (⟨[(1, 2)], [(3, 4)], [5]⟩ : PositronDict Nat Nat) 0
        = (some PyErr.keyError, ⟨[(1, 2)], [(3, 4)], [5]⟩)
      ∧ PositronDict.pop (⟨[(1, 2)], [(3, 4)], [5]⟩ : PositronDict Nat Nat) 0 none
        = (Except.error PyErr.keyError, ⟨[(1, 2)], [(3, 4)], [5]⟩) :=
  claim_C10_delete_atomic _ 0 (by decide)

end DictClaims

/-! ## Claims about truncation -/

theorem truncate_value_idem (w : Nat) (s : List Char) :
    truncate_value w (truncate_value w s) = truncate_value w s := by
  unfold truncate_value
  by_cases h : w < s.length
  · rw [if_pos h]
    have htw : (s.take w).length = w := by
      simp [List.length_take, Nat.min_eq_left (Nat.le_of_lt h)]
    have hlen : (s.take w ++ ['.', '.', '.']).length = w + 3 := by
      simp [htw]
    rw [if_pos (by rw [hlen]; omega)]
    have h1 : (s.take w ++ ['.', '.', '.']).take w = s.take w := by
      rw [List.take_append_of_le_length (by rw [htw])]
      simp [List.take_take]
    rw [h1]
  · rw [if_neg h, if_neg h]

/-- C6: truncation at the fixed limit (1024) is idempotent — truncating twice
equals truncating once; strings of length at most 1024 pass through
unchanged; longer strings are cut to the first 1024 characters with a
trailing `'...'` appended. -/
theorem claim_C6_truncate (s : List Char) :
    truncate_value MAX_ITEM_SUMMARY_LENGTH (truncate_value MAX_ITEM_SUMMARY_LENGTH s)
        = truncate_value MAX_ITEM_SUMMARY_LENGTH s
      ∧ (s.length ≤ MAX_ITEM_SUMMARY_LENGTH →
          truncate_value MAX_ITEM_SUMMARY_LENGTH s = s)
      ∧ (MAX_ITEM_SUMMARY_LENGTH < s.length →
          truncate_value MAX_ITEM_SUMMARY_LENGTH s
            = s.take MAX_ITEM_SUMMARY_LENGTH ++ ['.', '.', '.']) := by
  refine ⟨truncate_value_idem _ s, ?_, ?_⟩
  · intro h
    unfold truncate_value
    rw [if_neg (by omega)]
  · intro h
    unfold truncate_value
    rw [if_pos h]

theorem claim_C6_witness :
    truncate_value MAX_ITEM_SUMMARY_LENGTH ['a'] = ['a']
      ∧ truncate_value MAX_ITEM_SUMMARY_LENGTH (List.replicate 1025 'a')
        = List.replicate 1024 'a' ++ ['.', '.', '.'] := by
  constructor
  · exact (claim_C6_truncate ['a']).2.1 (by decide)
  · have h := (claim_C6_truncate (List.replicate 1025 'a')).2.2
      (by rw [List.length_replicate]; norm_num [MAX_ITEM_SUMMARY_LENGTH])
    rw [h, List.take_replicate]
    norm_num [MAX_ITEM_SUMMARY_LENGTH]

/-! ## Lemmas about the summarizers -/

theorem summarize_any_name (key : String) (v : PyValue) (kind : Option VKind)
    (ev : EnvVar) (h : summarize_any key v kind = Except.ok ev) : ev.name = key := by
  unfold summarize_any at h
  cases hr : (if kind = some VKind.string then renderString v else format_value v) with
  | error e => rw [hr] at h; simp at h
  | ok s =>
      rw [hr] at h
      cases hs : getsizeof v with
      | error e => rw [hs] at h; simp at h
      | ok sz =>
          rw [hs] at h
          simp at h
          rw [← h]

theorem summarize_dataframe_name (key : String) (v : PyValue) (ev : EnvVar)
    (h : summarize_dataframe key v = Except.ok ev) : ev.name = key := by
  unfold summarize_dataframe at h
  cases hs : getsizeof v with
  | error e => rw [hs] at h; simp at h
  | ok sz =>
      rw [hs] at h
      simp at h
      rw [← h]

theorem summarize_function_name (key : String) (v : PyValue) (ev : EnvVar)
    (h : summarize_function key v = Except.ok ev) : ev.name = key := by
  cases v <;> simp [summarize_function] at h <;> rw [← h]

theorem summarizeLoop_names (hidden : List String) (maxItems : Nat)
    (vars : List (String × PyValue)) (acc : List EnvVar) (i : Nat)
    (l : List EnvVar) (h : summarizeLoop hidden maxItems vars acc i = Except.ok l)
    (hacc : ∀ ev ∈ acc, ¬ ev.name ∈ hidden) :
    ∀ ev ∈ l, ¬ ev.name ∈ hidden := by
  induction vars generalizing acc i with
  | nil =>
      unfold summarizeLoop at h
      simp at h
      intro ev hev
      rw [← h] at hev
      simp at hev
      exact hacc ev hev
  | cons p rest ih =>
      obtain ⟨key, value⟩ := p
      unfold summarizeLoop at h
      by_cases hk : key ∈ hidden
      · rw [if_pos hk] at h
        exact ih acc i h hacc
      · rw [if_neg hk] at h
        by_cases hm : maxItems ≤ i
        · rw [if_pos hm] at h
          simp at h
          intro ev hev
          rw [← h] at hev
          simp at hev
          exact hacc ev hev
        · rw [if_neg hm] at h
          cases hd : (if get_kind value = some VKind.function then
                summarize_function key value
              else if get_kind value = some VKind.dataframe then
                summarize_dataframe key value
              else summarize_any key value (get_kind value)) with
          | error e => rw [hd] at h; simp at h
          | ok s =>
              rw [hd] at h
              have hs_name : s.name = key := by
                by_cases h1 : get_kind value = some VKind.function
                · rw [if_pos h1] at hd
                  exact summarize_function_name key value s hd
                · rw [if_neg h1] at hd
                  by_cases h2 : get_kind value = some VKind.dataframe
                  · rw [if_pos h2] at hd
                    exact summarize_dataframe_name key value s hd
                  · rw [if_neg h2] at hd
                    exact summarize_any_name key value (get_kind value) s hd
              refine ih (s :: acc) (i + 1) h ?_
              intro ev hev
              rcases List.mem_cons.mp hev with rfl | hmem
              · rw [hs_name]
                exact hk
              · exact hacc ev hmem

theorem summarize_variables_names (vars : List (String × PyValue)) (hidden : List String)
    (maxItems : Nat) (l : List EnvVar)
    (h : summarize_variables vars hidden maxItems = Except.ok l) :
    ∀ ev ∈ l, ¬ ev.name ∈ hidden :=
  summarizeLoop_names hidden maxItems vars [] 0 l h (by simp)

theorem send_update_shape (assigned : List (String × PyValue)) (removed hidden : List String)
    (m : EnvMsg) (h : send_update assigned removed hidden = Except.ok (some m)) :
    ∃ a r, m = EnvMsg.update a r := by
  unfold send_update at h
  cases hs : summarize_variables assigned hidden MAX_ITEMS with
  | error e => rw [hs] at h; simp at h
  | ok fa =>
      rw [hs] at h
      by_cases hcond : 0 < fa.length
          ∨ 0 < (removed.filter fun n => decide (¬ n ∈ hidden)).length
      · simp only [hcond, if_true] at h
        simp at h
        exact ⟨fa, _, h.symm⟩
      · simp only [hcond, if_false] at h
        simp at h

/-! ## Claims about the summarizers -/

/-- C1 (evaluation at the failing input): summarizing an object whose `repr`
raises does NOT yield a degraded name+type summary — the `except` branch's
three-argument `EnvironmentVariable(key, type_name, None)` call supplies only
three of the six required positional parameters, so it raises `TypeError`,
which `summarize_any` propagates to its caller. -/
theorem claim_C1_degraded_summary_raises :
    summarize_any "x" (PyValue.pobj "mymod" "Widget" none none true false 64)
        (get_kind (PyValue.pobj "mymod" "Widget" none none true false 64))
      = Except.error PyErr.typeError := by
  rfl

/-- C8 (counterexample): a dataframe value whose `shape` is a 3-tuple — a
"malformed" shape — is summarized with the bare display value `"DataFrame: "`
and NOT with the `"DataFrame: [0 rows x 0 columns]"` that the claim's
"defaulting to 0 rows by 0 columns whenever the shape attribute is absent or
malformed" requires. -/
theorem claim_C8_counterexample :
    get_kind (PyValue.pobj "pandas.core.frame" "DataFrame" (some [1, 2, 3]) (some 3)
        false false 0) = some VKind.dataframe
      ∧ summarize_dataframe "df" (PyValue.pobj "pandas.core.frame" "DataFrame"
          (some [1, 2, 3]) (some 3) false false 0)
        = Except.ok (EnvVar.mk "df" "DataFrame: " (some VKind.dataframe)
            "pandas.core.frame.DataFrame" (some 3) 0)
      ∧ ("DataFrame: " : String) ≠ "DataFrame: [0 rows x 0 columns]" := by
  refine ⟨rfl, rfl, by decide⟩

/-- C8 (amended): for any object routed to `summarize_dataframe` with a
working `__sizeof__`, the summary is kind `dataframe`, the qualified type
name, the value's length (or 0) and size, and a display value of
`"DataFrame: [R rows x C columns]"` derived from the `shape` attribute when
the shape (defaulted to `(0, 0)` when ABSENT, hence `[0 rows x 0 columns]`)
has exactly two entries — while a malformed (non-length-2) shape yields the
bare `"DataFrame: "` with no dimensions; and on an internal failure (a
raising `__sizeof__`) the `except` branch's three-argument constructor call
itself raises `TypeError` instead of returning a kind+type summary. -/
theorem claim_C8_amended (key m t : String) (sh : Option (List Nat))
    (len : Option Nat) (rf : Bool) (size : Nat) :
    summarize_dataframe key (PyValue.pobj m t sh len rf false size)
        = Except.ok (EnvVar.mk key
            (match sh with
             | none => "DataFrame: " ++ "[" ++ toString (0 : Nat) ++ " rows x "
                 ++ toString (0 : Nat) ++ " columns]"
             | some [r, c] => "DataFrame: " ++ "[" ++ toString r ++ " rows x "
                 ++ toString c ++ " columns]"
             | some _ => "DataFrame: ")
            (some VKind.dataframe)
            (if m = "builtins" then t else m ++ "." ++ t)
            (some (match len with | some n => n | none => 0))
            size)
      ∧ summarize_dataframe key (PyValue.pobj m t sh len rf true size)
        = Except.error PyErr.typeError := by
  constructor
  · rcases sh with _ | ⟨_ | ⟨r, _ | ⟨c, _ | ⟨x, rest⟩⟩⟩⟩ <;> cases len <;> rfl
  · rfl

theorem send_list_shape (ns : List (String × PyValue)) (hidden : List String)
    (m : EnvMsg) (h : send_list ns hidden = Except.ok (some m)) :
    ∃ vs, m = EnvMsg.list vs := by
  unfold send_list at h
  cases hs : summarize_variables ns hidden MAX_ITEMS with
  | error e => rw [hs] at h; simp at h
  | ok fv =>
      rw [hs] at h
      simp at h
      exact ⟨fv, h.symm⟩

/-- C7: for a name in the hidden-name set, no outbound report contains it —
an `update` message sent by `send_update` has the name in neither its
assigned summaries nor its removed set, `send_update` sends nothing when both
hidden-filtered sides are empty, and a `list` message sent by `send_list`
never summarizes the name. -/
theorem claim_C7_hidden_filtered (assigned : List (String × PyValue))
    (removed hidden : List String) (ns : List (String × PyValue))
    (name : String) (hname : name ∈ hidden) :
    (∀ a r, send_update assigned removed hidden = Except.ok (some (EnvMsg.update a r)) →
        (∀ ev ∈ a, ev.name ≠ name) ∧ ¬ name ∈ r)
      ∧ (∀ vs, send_list ns hidden = Except.ok (some (EnvMsg.list vs)) →
          ∀ ev ∈ vs, ev.name ≠ name)
      ∧ (summarize_variables assigned hidden MAX_ITEMS = Except.ok [] →
          removed.filter (fun n => decide (¬ n ∈ hidden)) = [] →
          send_update assigned removed hidden = Except.ok none) := by
  refine ⟨?_, ?_, ?_⟩
  · intro a r h
    unfold send_update at h
    cases hs : summarize_variables assigned hidden MAX_ITEMS with
    | error e => rw [hs] at h; simp at h
    | ok fa =>
        rw [hs] at h
        by_cases hcond : 0 < fa.length
            ∨ 0 < (removed.filter fun n => decide (¬ n ∈ hidden)).length
        · simp only [hcond, if_true] at h
          simp at h
          obtain ⟨ha, hr⟩ := h
          constructor
          · intro ev hev heq
            have hev' : ev ∈ fa := by rw [ha]; exact hev
            have hn := summarize_variables_names assigned hidden MAX_ITEMS fa hs ev hev'
            rw [heq] at hn
            exact hn hname
          · intro hmem
            rw [← hr] at hmem
            have hd := (List.mem_filter.mp hmem).2
            simp at hd
            exact hd hname
        · simp only [hcond, if_false] at h
          simp at h
  · intro vs h
    unfold send_list at h
    cases hs : summarize_variables ns hidden MAX_ITEMS with
    | error e => rw [hs] at h; simp at h
    | ok fv =>
        rw [hs] at h
        simp at h
        intro ev hev heq
        have hev' : ev ∈ fv := by rw [h]; exact hev
        have hn := summarize_variables_names ns hidden MAX_ITEMS fv hs ev hev'
        rw [heq] at hn
        exact hn hname
  · intro h1 h2
    unfold send_update
    rw [h1]
    simp only [h2]
    rfl

theorem claim_C7_witness :
    send_update [("_secret", PyValue.pnum 1)] ["_secret"] ["_secret"]
      = Except.ok none :=
  (claim_C7_hidden_filtered [("_secret", PyValue.pnum 1)] ["_secret"] ["_secret"]
      [] "_secret" (by decide)).2.2 (by decide) (by decide)

/-- C3 (counterexample): with no changes recorded, both counts (0 and 0) are
strictly below the 2000 cap, yet the post-execute handler emits NO update
message — the empty update is suppressed — refuting the claim's "an `update`
report is emitted if and only if both the assigned count and the removed
count are strictly below 2000". -/
theorem claim_C3_counterexample :
    ((⟨[], [], []⟩ : PositronDict String PyValue).assigned.length < MAX_ITEMS
        ∧ (⟨[], [], []⟩ : PositronDict String PyValue).removed.length < MAX_ITEMS)
      ∧ (handle_post_execute (⟨[], [], []⟩ : PositronDict String PyValue) []).2
        = none :=
  ⟨by decide, rfl⟩

/-- C3 (amended): when the namespace supports change tracking, the
post-execute handler resets the watch (keeping the mapping contents) and
then: an emitted `update` message implies both counts were strictly below
2000; an emitted `list` message implies some count reached 2000; when both
counts are below 2000, whatever `send_update` produces (an update message, or
nothing when the hidden-filtered sides are both empty or summarization
raises) is the handler's output; and when some count reaches 2000, whatever
`send_list` produces is the handler's output. -/
theorem claim_C3_update_vs_list (ns : PositronDict String PyValue)
    (hidden : List String) :
    (handle_post_execute ns hidden).1 = ns.resetWatch
      ∧ (∀ a r, (handle_post_execute ns hidden).2 = some (EnvMsg.update a r) →
          ns.assigned.length < MAX_ITEMS ∧ ns.removed.length < MAX_ITEMS)
      ∧ (∀ vs, (handle_post_execute ns hidden).2 = some (EnvMsg.list vs) →
          ¬ (ns.assigned.length < MAX_ITEMS ∧ ns.removed.length < MAX_ITEMS))
      ∧ ((ns.assigned.length < MAX_ITEMS ∧ ns.removed.length < MAX_ITEMS) →
          ∀ m, send_update ns.assigned ns.removed hidden = Except.ok (some m) →
            (handle_post_execute ns hidden).2 = some m)
      ∧ (¬ (ns.assigned.length < MAX_ITEMS ∧ ns.removed.length < MAX_ITEMS) →
          ∀ m, send_list ns.data hidden = Except.ok (some m) →
            (handle_post_execute ns hidden).2 = some m) := by
  unfold handle_post_execute
  by_cases hc : ns.assigned.length < MAX_ITEMS ∧ ns.removed.length < MAX_ITEMS
  · rw [if_pos hc]
    cases hs : send_update ns.assigned ns.removed hidden with
    | error e =>
        refine ⟨rfl, ?_, ?_, ?_, ?_⟩
        · intro a r h
          simp at h
        · intro vs h
          simp at h
        · intro h m hm
          simp at hm
        · intro h m hm
          exact absurd hc h
    | ok mo =>
        cases mo with
        | none =>
            refine ⟨rfl, ?_, ?_, ?_, ?_⟩
            · intro a r h
              simp at h
            · intro vs h
              simp at h
            · intro h m hm
              simp at hm
            · intro h m hm
              exact absurd hc h
        | some m0 =>
            refine ⟨rfl, ?_, ?_, ?_, ?_⟩
            · intro a r h
              exact hc
            · intro vs h
              simp at h
              rcases send_update_shape _ _ _ _ hs with ⟨a, r, hshape⟩
              rw [h] at hshape
              simp at hshape
            · intro h m hm
              simp at hm
              rw [hm]
            · intro h m hm
              exact absurd hc h
  · rw [if_neg hc]
    cases hs : send_list ns.data hidden with
    | error e =>
        refine ⟨rfl, ?_, ?_, ?_, ?_⟩
        · intro a r h
          simp at h
        · intro vs h
          simp at h
        · intro h m hm
          exact absurd h hc
        · intro h m hm
          simp at hm
    | ok mo =>
        cases mo with
        | none =>
            refine ⟨rfl, ?_, ?_, ?_, ?_⟩
            · intro a r h
              simp at h
            · intro vs h
              simp at h
            · intro h m hm
              exact absurd h hc
            · intro h m hm
              simp at hm
        | some m0 =>
            refine ⟨rfl, ?_, ?_, ?_, ?_⟩
            · intro a r h
              simp at h
              rcases send_list_shape _ _ _ hs with ⟨vs, hshape⟩
              rw [h] at hshape
              simp at hshape
            · intro vs h
              exact hc
            · intro h m hm
              exact absurd h hc
            · intro h m hm
              simp at hm
              rw [hm]

theorem claim_C3_witness :
    (handle_post_execute (⟨[("x", PyValue.pnum 5)], [("x", PyValue.pnum 5)], []⟩
        : PositronDict String PyValue) []).2
      = some (EnvMsg.update
          [EnvVar.mk "x" "5" (some VKind.number) "int" (some 0) 0] []) :=
  (claim_C3_update_vs_list _ _).2.2.2.1 (by decide) _ (by decide)
